import Mathlib

/-!
Shallow embedding of `react-native-draggable-sectionlist`.

The repository provides a drag-and-reorder section list for React Native.
Its logic lives in two places:

* `src/example/src/index.tsx` — the `DraggableSectionList` component
  (two revisions of the component appear in the file; the claims cite the
  second, live revision's line numbers; where both revisions define the same
  function the bodies agree except where noted).
* `src/unnamed/part_000` — `memoizeWrap`, a memoized wrapper around
  `createNativeWrapper` keyed on the component object.

Numbers flowing through the Reanimated node graph and the autoscroll
arithmetic are embedded as rationals (`ℚ`); JS array indices as `Nat`;
nullable JS values as `Option`; a thrown `Error` as `Except String`.
Reanimated `Value`s become fields of explicit state structures, and each
event handler or node block becomes a state-passing function.  A Reanimated
`call(...)` node dispatches to the JS thread; we record such dispatches as
emitted call descriptions instead of applying their effects inside the
native-side step, mirroring the thread split in the host.
-/

namespace DSL

/-- Gesture states of `react-native-gesture-handler` (`State` enum). -/
def GS_UNDETERMINED : Int := 0

/-- Gesture state FAILED. -/
def GS_FAILED : Int := 1

/-- Gesture state BEGAN. -/
def GS_BEGAN : Int := 2

/-- Gesture state CANCELLED. -/
def GS_CANCELLED : Int := 3

/-- Gesture state ACTIVE. -/
def GS_ACTIVE : Int := 4

/-- Gesture state END. -/
def GS_END : Int := 5

/-!  ## keyExtractor (index.tsx lines 1476–1480)

```js
keyExtractor = (item, index) => {
  if (this.props.keyExtractor) return this.props.keyExtractor(item, index);
  else throw new Error('You must provide a keyExtractor to DraggableFlatList');
};
```
The optional `keyExtractor` prop is an `Option (α → Nat → String)`; a throw
is an `Except.error` carrying the message. -/

/-- Embedding of the component's `keyExtractor` method. -/
def keyExtractor {α : Type} (propKeyExtractor : Option (α → Nat → String))
    (item : α) (index : Nat) : Except String String :=
  match propKeyExtractor with
  | some f => Except.ok (f item index)
  | none => Except.error "You must provide a keyExtractor to DraggableFlatList"

/-!  ## memoizeWrap (src/unnamed/part_000 lines 9–19)

```js
const MEMOIZED = new WeakMap();
function memoizeWrap(Component, config) {
  if (Component == null) return null;
  let memoized = MEMOIZED.get(Component);
  if (!memoized) {
    memoized = createNativeWrapper(Component, config);
    MEMOIZED.set(Component, memoized);
  }
  return memoized;
}
```
Components are identified by a `Nat` id; the `WeakMap` is an association
list from component id to wrapper.  `createNativeWrapper` allocates a fresh
wrapper object: wrapper identity is a fresh stamp drawn from a counter, so
"the identical wrapper object" is expressible as stamp equality.  The third
result component counts how many times `createNativeWrapper` ran during the
call. -/

/-- A wrapper object returned by `createNativeWrapper`: the wrapped
component, the config it was created with, and an allocation stamp giving
it JS object identity. -/
structure Wrapper where
  component : Nat
  config : Nat
  stamp : Nat
  deriving DecidableEq, Repr

/-- The module-level `MEMOIZED` weak map plus an allocation counter for
fresh object stamps. -/
structure MemoState where
  table : List (Nat × Wrapper)
  nextStamp : Nat
  deriving Repr

/-- Association-list lookup, the embedding of `WeakMap.prototype.get`. -/
def weakMapGet (table : List (Nat × Wrapper)) (k : Nat) : Option Wrapper :=
  match table with
  | [] => none
  | (k', w) :: rest => if k' = k then some w else weakMapGet rest k

/-- Embedding of `createNativeWrapper(Component, config)`: allocates a fresh
wrapper object. -/
def createNativeWrapper (st : MemoState) (component config : Nat) :
    Wrapper × MemoState :=
  (⟨component, config, st.nextStamp⟩, { st with nextStamp := st.nextStamp + 1 })

/-- Embedding of `memoizeWrap`.  Returns the wrapper (or `none` for a null
component), the updated memo state, and the number of `createNativeWrapper`
invocations made. -/
def memoizeWrap (st : MemoState) (component : Option Nat) (config : Nat) :
    Option Wrapper × MemoState × Nat :=
  match component with
  | none => (none, st, 0)
  | some c =>
    match weakMapGet st.table c with
    | some memoized => (some memoized, st, 0)
    | none =>
      let (memoized, st1) := createNativeWrapper st c config
      (some memoized, { st1 with table := (c, memoized) :: st1.table }, 1)

/-!  ## onDragEnd (index.tsx lines 1859–1871)

```js
onDragEnd = ([from, to]) => {
  const {onDragEnd} = this.props;
  if (onDragEnd) {
    const {data} = this.props;
    let newData = [...data];
    if (from !== to) {
      newData.splice(from, 1);
      newData.splice(to, 0, data[from]);
    }
    onDragEnd({from, to, data: newData});
  }
};
```
`[...data]` copies the props array, so the props array is never mutated;
the embedding works on immutable lists, and the theorem speaks about the
value handed to the `onDragEnd` prop.  `Array.prototype.splice` clamps its
start index at the array length; `splice(i, 1)` with a clamped index
deletes nothing, which is exactly `List.eraseIdx`; `splice(i, 0, x)` with
the index clamped at the length is `List.insertIdx (min i length)`. -/

/-- Embedding of `newData.splice(i, 1)` for a non-negative index: JS clamps
`i` at the length, where the deletion is a no-op, matching `eraseIdx`. -/
def jsSpliceRemoveOne {α : Type} (l : List α) (i : Nat) : List α :=
  l.eraseIdx i

/-- Embedding of `newData.splice(i, 0, x)` for a non-negative index: JS
clamps `i` at the length, so the insertion always happens. -/
def jsSpliceInsert {α : Type} (l : List α) (i : Nat) (x : α) : List α :=
  l.insertIdx (min i l.length) x

/-- The reordered array that `onDragEnd` builds from the props data and the
`[from, to] = [activeIndex, spacerIndex]` pair reported by the node graph. -/
def onDragEndNewData {α : Type} [Inhabited α] (data : List α)
    (fromIdx toIdx : Nat) : List α :=
  if fromIdx = toIdx then data
  else jsSpliceInsert (jsSpliceRemoveOne data fromIdx) toIdx (data.getD fromIdx default)

/-- Embedding of the full `onDragEnd` handler: when the `onDragEnd` prop is
present it is called with `{from, to, data: newData}`, recorded here as the
returned value; when absent nothing is called. -/
def onDragEnd {α : Type} [Inhabited α] (hasOnDragEndProp : Bool)
    (data : List α) (fromIdx toIdx : Nat) : Option (Nat × Nat × List α) :=
  if hasOnDragEndProp then
    some (fromIdx, toIdx, onDragEndNewData data fromIdx toIdx)
  else none

/-!  ## The Reanimated node-graph state

Fields mirror the component's `Animated.Value`s and clocks; props that feed
the graph (`horizontal`, `dragItemOverflow`, `autoscrollThreshold`,
`autoscrollSpeed`) live in `NodeProps`.  `scrollPositionTolerance` is the
hard-coded `2` in `isScrolledUp` / `isScrolledDown`. -/

/-- Props that parameterize the node graph and the autoscroll arithmetic
(`Platform.OS` is carried as `isIOS`, `isAutoscrolling.js` as a plain
boolean field of the JS side). -/
structure NodeProps where
  horizontal : Bool
  dragItemOverflow : Bool
  autoscrollThreshold : ℚ
  autoscrollSpeed : ℚ
  isIOS : Bool

/-- The native-side `Animated.Value`s and clocks of `DraggableSectionList`
that the gesture and autoscroll nodes read and write. -/
structure NodeState where
  touchAbsolute : ℚ
  touchCellOffset : ℚ
  containerSize : ℚ
  activeCellSize : ℚ
  scrollOffset : ℚ
  scrollViewSize : ℚ
  activationDistance : ℚ
  activeIndex : Int
  spacerIndex : Int
  panGestureState : Int
  hasMoved : Bool
  disabled : Bool
  isPressedInNative : Bool
  isAutoscrollingNative : Bool
  hoverClockRunning : Bool
  hoverAnimStatePosition : ℚ

/-- `hoverAnimUnconstrained = sub(touchAbsolute, touchCellOffset)`. -/
def hoverAnimUnconstrained (s : NodeState) : ℚ :=
  s.touchAbsolute - s.touchCellOffset

/-- `hoverAnimConstrained = min(containerSize - activeCellSize, max(0, hoverAnimUnconstrained))`. -/
def hoverAnimConstrained (s : NodeState) : ℚ :=
  min (s.containerSize - s.activeCellSize) (max 0 (hoverAnimUnconstrained s))

/-- `hoverAnim`: the unconstrained node when `dragItemOverflow` is set,
else the constrained one. -/
def hoverAnim (p : NodeProps) (s : NodeState) : ℚ :=
  if p.dragItemOverflow then hoverAnimUnconstrained s else hoverAnimConstrained s

/-- `isHovering = greaterThan(activeIndex, -1)`. -/
def isHovering (s : NodeState) : Bool :=
  s.activeIndex > -1

/-- `distToTopEdge = max(0, hoverAnim)`. -/
def distToTopEdge (p : NodeProps) (s : NodeState) : ℚ :=
  max 0 (hoverAnim p s)

/-- `distToBottomEdge = max(0, containerSize - (hoverAnim + activeCellSize))`. -/
def distToBottomEdge (p : NodeProps) (s : NodeState) : ℚ :=
  max 0 (s.containerSize - (hoverAnim p s + s.activeCellSize))

/-- `isAtTopEdge = lessOrEq(distToTopEdge, autoscrollThreshold)`. -/
def isAtTopEdge (p : NodeProps) (s : NodeState) : Bool :=
  distToTopEdge p s ≤ p.autoscrollThreshold

/-- `isAtBottomEdge = lessOrEq(distToBottomEdge, autoscrollThreshold)`. -/
def isAtBottomEdge (p : NodeProps) (s : NodeState) : Bool :=
  distToBottomEdge p s ≤ p.autoscrollThreshold

/-- `isAtEdge = or(isAtBottomEdge, isAtTopEdge)`. -/
def isAtEdge (p : NodeProps) (s : NodeState) : Bool :=
  isAtBottomEdge p s || isAtTopEdge p s

/-- `isScrolledUp = lessOrEq(sub(scrollOffset, 2), 0)`. -/
def isScrolledUp (s : NodeState) : Bool :=
  s.scrollOffset - 2 ≤ 0

/-- `isScrolledDown = greaterOrEq(add(scrollOffset, containerSize, 2), scrollViewSize)`. -/
def isScrolledDown (s : NodeState) : Bool :=
  s.scrollOffset + s.containerSize + 2 ≥ s.scrollViewSize

/-!  ## checkAutoscroll (index.tsx lines 1846–1855)

```js
checkAutoscroll = cond(
  and(
    this.isAtEdge,
    not(and(this.isAtTopEdge, this.isScrolledUp)),
    not(and(this.isAtBottomEdge, this.isScrolledDown)),
    eq(this.panGestureState, GestureState.ACTIVE),
    not(this.isAutoscrolling.native),
  ),
  call(this.autoscrollParams, this.autoscroll),
);
```
The embedding computes the guard; the `call` fires exactly when the guard
evaluates to a nonzero value. -/

/-- Guard of the `checkAutoscroll` node: `true` exactly when the node
invokes `call(autoscrollParams, autoscroll)`. -/
def checkAutoscrollFires (p : NodeProps) (s : NodeState) : Bool :=
  isAtEdge p s
    && !(isAtTopEdge p s && isScrolledUp s)
    && !(isAtBottomEdge p s && isScrolledDown s)
    && (s.panGestureState == GS_ACTIVE)
    && !s.isAutoscrollingNative

/-!  ## getScrollTargetOffset (index.tsx lines 1772–1799; identical body at
lines 754–781 of the first revision)

```js
getScrollTargetOffset = (distFromTop, distFromBottom, scrollOffset,
                         isScrolledUp, isScrolledDown) => {
  if (this.isAutoscrolling.js) return -1;
  const {autoscrollThreshold, autoscrollSpeed} = this.props;
  const scrollUp = distFromTop < autoscrollThreshold;
  const scrollDown = distFromBottom < autoscrollThreshold;
  if (!(scrollUp || scrollDown) ||
      (scrollUp && isScrolledUp) ||
      (scrollDown && isScrolledDown))
    return -1;
  const distFromEdge = scrollUp ? distFromTop : distFromBottom;
  const speedPct = 1 - distFromEdge / autoscrollThreshold;
  const speed = Platform.OS === 'ios' ? autoscrollSpeed : autoscrollSpeed / 10;
  const offset = speedPct * speed;
  const targetOffset = scrollUp
    ? Math.max(0, scrollOffset - offset)
    : scrollOffset + offset;
  return targetOffset;
};
```
-/

/-- Embedding of `getScrollTargetOffset`. -/
def getScrollTargetOffset (p : NodeProps) (isAutoscrollingJs : Bool)
    (distFromTop distFromBottom scrollOffset : ℚ)
    (scrolledUp scrolledDown : Bool) : ℚ :=
  if isAutoscrollingJs then -1
  else
    let scrollUp : Bool := distFromTop < p.autoscrollThreshold
    let scrollDown : Bool := distFromBottom < p.autoscrollThreshold
    if !(scrollUp || scrollDown) || (scrollUp && scrolledUp)
        || (scrollDown && scrolledDown) then -1
    else
      let distFromEdge := if scrollUp then distFromTop else distFromBottom
      let speedPct := 1 - distFromEdge / p.autoscrollThreshold
      let speed := if p.isIOS then p.autoscrollSpeed else p.autoscrollSpeed / 10
      let offset := speedPct * speed
      if scrollUp then max 0 (scrollOffset - offset) else scrollOffset + offset

/-!  ## onPanGestureEvent (index.tsx lines 1573–1591)

```js
onPanGestureEvent = event([{
  nativeEvent: ({x, y}) =>
    cond(
      and(this.isHovering,
          eq(this.panGestureState, GestureState.ACTIVE),
          not(this.disabled)),
      [
        cond(not(this.hasMoved), set(this.hasMoved, 1)),
        set(this.touchAbsolute,
            add(this.props.horizontal ? x : y, this.activationDistance)),
      ],
    ),
}]);
```
-/

/-- Guard of the pan-gesture event node. -/
def panEventGuard (s : NodeState) : Bool :=
  isHovering s && (s.panGestureState == GS_ACTIVE) && !s.disabled

/-- Embedding of one `onPanGestureEvent` evaluation at touch coordinates
`(x, y)`. -/
def onPanGestureEvent (p : NodeProps) (s : NodeState) (x y : ℚ) : NodeState :=
  if panEventGuard s then
    let s1 := if !s.hasMoved then { s with hasMoved := true } else s
    { s1 with
      touchAbsolute := (if p.horizontal then x else y) + s1.activationDistance }
  else s

/-!  ## onGestureRelease (index.tsx lines 1700–1720)

```js
onGestureRelease = [
  cond(
    this.isHovering,
    [
      set(this.disabled, 1),
      cond(defined(this.hoverClock), [
        cond(clockRunning(this.hoverClock), stopClock(this.hoverClock)),
        set(this.hoverAnimState.position, this.hoverAnim),
        startClock(this.hoverClock),
      ]),
      [
        call([this.activeIndex], this.onRelease),
        cond(not(this.hasMoved),
             call([this.activeIndex], this.resetHoverState)),
      ],
    ],
    call([this.activeIndex], this.resetHoverState),
  ),
];
```
`defined(this.hoverClock)` is always truthy (the clock exists).  The two
`call` nodes dispatch to the JS thread; they are recorded as emitted
`JsCall`s, not applied to the native values inside this step. -/

/-- A dispatch from the native node graph to a JS callback, carrying the
`activeIndex` argument array of the `call` node. -/
inductive JsCall where
  | onReleaseCall (activeIndex : Int)
  | resetHoverStateCall (activeIndex : Int)
  deriving DecidableEq, Repr

/-- Embedding of the `onGestureRelease` node block: the updated native
state and the JS callbacks it dispatches, in order. -/
def onGestureRelease (p : NodeProps) (s : NodeState) : NodeState × List JsCall :=
  if isHovering s then
    let s1 := { s with disabled := true }
    let s2 := { s1 with hoverClockRunning := false }
    let s3 := { s2 with
      hoverAnimStatePosition := hoverAnim p s2,
      hoverClockRunning := true }
    (s3, [JsCall.onReleaseCall s.activeIndex] ++
      (if !s.hasMoved then [JsCall.resetHoverStateCall s.activeIndex] else []))
  else (s, [JsCall.resetHoverStateCall s.activeIndex])

/-- `hoverComponentTranslate = cond(clockRunning(hoverClock),
hoverAnimState.position, hoverAnim)` (index.tsx lines 1648–1652): the
floating overlay's translation. -/
def hoverComponentTranslate (p : NodeProps) (s : NodeState) : ℚ :=
  if s.hoverClockRunning then s.hoverAnimStatePosition else hoverAnim p s

/-!  ## The React-side component state and its transitions

`State = {activeKey: string | null, hoverComponent: ReactNode | null}`.
Hover components are identified by a `Nat` id.  `keyToIndex` is the
component's key-to-flattened-index map, `cellData` the measured
`(offset, size)` per key (only the fields `componentDidUpdate` reads). -/

/-- The React `this.state` of `DraggableSectionList`. -/
structure ReactState where
  activeKey : Option String
  hoverComponent : Option Nat
  deriving DecidableEq, Repr

/-- The component state visible to the JS-side methods: React state, the
native values they touch, and the instance maps. -/
structure CompState where
  node : NodeState
  react : ReactState
  keyToIndex : List (String × Nat)
  cellData : List (String × ℚ × ℚ)

/-- `Map.prototype.get` on the association-list embedding of
`keyToIndex`. -/
def lookupKey (m : List (String × Nat)) (k : String) : Option Nat :=
  match m with
  | [] => none
  | (k', i) :: rest => if k' = k then some i else lookupKey rest k

/-- `Map.prototype.get` on the `cellData` embedding, yielding the cell's
`(offset value, measured size)`. -/
def lookupCell (m : List (String × ℚ × ℚ)) (k : String) : Option (ℚ × ℚ) :=
  match m with
  | [] => none
  | (k', c) :: rest => if k' = k then some c else lookupCell rest k

/-!  ## drag (index.tsx lines 1482–1497)

```js
drag = (hoverComponent, activeKey) => {
  if (this.state.hoverComponent) {
    console.error("Can't set multiple active items");
    return;
  }
  this.setState({hoverComponent: hoverComponent, activeKey: activeKey}, () => {
    const index = this.keyToIndex.get(activeKey);
    const {onDragBegin} = this.props;
    if (index !== undefined && onDragBegin) {
      onDragBegin(index);
    }
  });
};
```
-/

/-- Embedding of `drag`: the updated component state and the index passed
to the `onDragBegin` prop (`none` when the prop is absent, the index is
unknown, or the call was rejected because a hover component exists). -/
def drag (hasOnDragBegin : Bool) (s : CompState) (hoverComponent : Nat)
    (activeKey : String) : CompState × Option Nat :=
  if s.react.hoverComponent.isSome then (s, none)
  else
    let s' := { s with react :=
      { hoverComponent := some hoverComponent, activeKey := some activeKey } }
    let beginIdx :=
      match lookupKey s.keyToIndex activeKey, hasOnDragBegin with
      | some index, true => some index
      | _, _ => none
    (s', beginIdx)

/-!  ## resetHoverState (index.tsx lines 1688–1698)

```js
resetHoverState = () => {
  this.activeIndex.setValue(-1);
  this.spacerIndex.setValue(-1);
  this.disabled.setValue(0);
  if (this.state.hoverComponent !== null || this.state.activeKey !== null) {
    this.setState({hoverComponent: null, activeKey: null});
  }
};
```
-/

/-- Embedding of `resetHoverState`. -/
def resetHoverState (s : CompState) : CompState :=
  let s1 := { s with node :=
    { s.node with activeIndex := -1, spacerIndex := -1, disabled := false } }
  if s1.react.hoverComponent ≠ none ∨ s1.react.activeKey ≠ none then
    { s1 with react := { hoverComponent := none, activeKey := none } }
  else s1

/-!  ## componentDidUpdate, drag-begin half (index.tsx lines 1358–1371)

```js
if (!prevState.activeKey && this.state.activeKey) {
  const index = this.keyToIndex.get(this.state.activeKey);
  if (index !== undefined) {
    this.spacerIndex.setValue(index);
    this.activeIndex.setValue(index);
    this.touchCellOffset.setValue(0);
    this.isPressedIn.native.setValue(1);
  }
  const cellData = this.cellData.get(this.state.activeKey);
  if (cellData) {
    this.touchAbsolute.setValue(sub(cellData.offset, this.scrollOffset));
    this.activeCellSize.setValue(cellData.measurements.size);
  }
}
```
-/

/-- Embedding of the drag-begin half of `componentDidUpdate`, run after a
state change with `prevActiveKey` the previous `state.activeKey`. -/
def didUpdateActiveKey (prevActiveKey : Option String) (s : CompState) :
    CompState :=
  if prevActiveKey = none ∧ s.react.activeKey ≠ none then
    match s.react.activeKey with
    | none => s
    | some k =>
      let s1 :=
        match lookupKey s.keyToIndex k with
        | none => s
        | some index =>
          { s with node := { s.node with
              spacerIndex := index,
              activeIndex := index,
              touchCellOffset := 0,
              isPressedInNative := true } }
      match lookupCell s1.cellData k with
      | none => s1
      | some (cellOffset, cellSize) =>
        { s1 with node := { s1.node with
            touchAbsolute := cellOffset - s1.node.scrollOffset,
            activeCellSize := cellSize } }
  else s

/-!  ## Reachability of the drag life-cycle (for the spacer-index
invariant)

A drag begins when `drag` succeeds (so `activeKey` goes from `null` to a
key) and React then runs `componentDidUpdate` with the old state; the hover
state is torn down by `resetHoverState`.  The claim about the spacer index
restricts drag begins to keys whose index is known, and speaks about states
outside the transient drop animation, which these two transitions
delimit. -/

/-- States of the component reachable through drag begins (to keys with a
known index) and hover resets, from any state with no active row and the
spacer parked at `-1`. -/
inductive DragReach : CompState → Prop where
  | init (s : CompState) (h1 : s.node.spacerIndex = -1)
      (h2 : s.node.activeIndex = -1) (h3 : s.react.activeKey = none)
      (h4 : s.react.hoverComponent = none) : DragReach s
  | beginDrag (s : CompState) (hc : Nat) (k : String) (i : Nat)
      (hs : DragReach s) (hk : s.react.activeKey = none)
      (hidx : lookupKey s.keyToIndex k = some i) :
      DragReach (didUpdateActiveKey s.react.activeKey
        (drag true s hc k).1)
  | reset (s : CompState) (hs : DragReach s) : DragReach (resetHoverState s)

/-!  ## Theorems -/

/-- C9: `keyExtractor` raises an error with message "You must provide a
keyExtractor to DraggableFlatList" for every item and index whenever the
`keyExtractor` prop is absent, and returns exactly the prop's result when
the prop is present.  The method reads only `this.props.keyExtractor` and
writes nothing, so the component state is unchanged (the embedding is a
pure function of the prop). -/
theorem keyExtractor_spec {α : Type} (f : α → Nat → String) (item : α)
    (index : Nat) :
    keyExtractor (α := α) none item index =
      Except.error "You must provide a keyExtractor to DraggableFlatList" ∧
    keyExtractor (some f) item index = Except.ok (f item index) :=
  ⟨rfl, rfl⟩

/-- C10: `memoizeWrap` returns null for a null component, and is memoized
per component: for every non-null component a second call with the same
component returns the identical wrapper object produced by the first call
(same allocation stamp), and performs zero further `createNativeWrapper`
invocations. -/
theorem memoizeWrap_memoized (st : MemoState) (c config config2 : Nat) :
    memoizeWrap st none config = (none, st, 0) ∧
    (memoizeWrap (memoizeWrap st (some c) config).2.1 (some c) config2).1 =
      (memoizeWrap st (some c) config).1 ∧
    (memoizeWrap (memoizeWrap st (some c) config).2.1 (some c) config2).2.2 = 0 := by
  refine ⟨rfl, ?_, ?_⟩ <;>
    cases h : weakMapGet st.table c <;>
      simp [memoizeWrap, h, weakMapGet, createNativeWrapper]

/-- C1: for every data array and in-range indices `from`, `to` reported at
drag end, `onDragEnd` calls the `onDragEnd` prop with `{from, to, data}`
where the data is a new array equal to the input with the element at
position `from` removed and reinserted at position `to` when `from ≠ to`,
and equal to the input when `from = to`.  The handler copies the props
array (`[...data]`) before splicing, and the embedding is a pure function
of the input list, so the original props array is never mutated. -/
theorem onDragEnd_reorders {α : Type} [Inhabited α] (data : List α)
    (fromIdx toIdx : Nat) (hf : fromIdx < data.length)
    (ht : toIdx < data.length) :
    onDragEnd true data fromIdx toIdx =
      some (fromIdx, toIdx,
        if fromIdx = toIdx then data
        else (data.eraseIdx fromIdx).insertIdx toIdx (data.get ⟨fromIdx, hf⟩)) := by
  have herase : (data.eraseIdx fromIdx).length = data.length - 1 := by
    rw [List.length_eraseIdx]
    simp [hf]
  have hmin : min toIdx (data.eraseIdx fromIdx).length = toIdx := by
    rw [herase]
    exact Nat.min_eq_left (by omega)
  have hgetD : data.getD fromIdx default = data.get ⟨fromIdx, hf⟩ := by
    simp [List.getD_eq_getElem?_getD, List.getElem?_eq_getElem hf]
  simp only [onDragEnd, if_pos, onDragEndNewData, jsSpliceInsert,
    jsSpliceRemoveOne, hmin, hgetD, if_true]

/-- C1 witness: a concrete drop of row 1 onto slot 3 of a four-element
list hands `[10, 30, 40, 20]` to the `onDragEnd` prop. -/
theorem onDragEnd_reorders_witness :
    onDragEnd true [10, 20, 30, 40] 1 3 = some (1, 3, [10, 30, 40, 20]) := by
  have h := onDragEnd_reorders [10, 20, 30, 40] 1 3 (by decide) (by decide)
  simpa using h

/-- Helper: `max 0 x` is never `-1` over `ℚ`. -/
theorem max_zero_ne_neg_one (x : ℚ) : max 0 x ≠ -1 := by
  intro h
  have h0 : (0 : ℚ) ≤ max 0 x := le_max_left 0 x
  rw [h] at h0
  norm_num at h0

/-- Helper: the autoscroll step `(1 - d / thr) * speed` is positive when
`d` is strictly inside the threshold and the speed is positive. -/
theorem autoscroll_offset_pos {thr speed d : ℚ} (hthr : 0 < thr)
    (hspeed : 0 < speed) (hd : d < thr) : 0 < (1 - d / thr) * speed := by
  have h1 : d / thr < 1 := (div_lt_one hthr).mpr hd
  have h2 : 0 < 1 - d / thr := by linarith
  exact mul_pos h2 hspeed

/-- Helper: the platform-adjusted speed is positive when the
`autoscrollSpeed` prop is. -/
theorem platform_speed_pos (p : NodeProps) (hspeed : 0 < p.autoscrollSpeed) :
    0 < (if p.isIOS then p.autoscrollSpeed else p.autoscrollSpeed / 10) := by
  by_cases h : p.isIOS <;> simp [h] <;> linarith

/-- Helper: `getScrollTargetOffset` as a Prop-level conditional, by case
analysis on each boolean input of the source function. -/
theorem getScrollTargetOffset_eq (p : NodeProps)
    (auto scrolledUp scrolledDown : Bool) (dTop dBottom so : ℚ) :
    getScrollTargetOffset p auto dTop dBottom so scrolledUp scrolledDown =
      if auto = true then -1
      else if ¬(dTop < p.autoscrollThreshold ∨ dBottom < p.autoscrollThreshold) ∨
          (dTop < p.autoscrollThreshold ∧ scrolledUp = true) ∨
          (dBottom < p.autoscrollThreshold ∧ scrolledDown = true) then -1
      else if dTop < p.autoscrollThreshold then
        max 0 (so - (1 - dTop / p.autoscrollThreshold) *
          (if p.isIOS = true then p.autoscrollSpeed else p.autoscrollSpeed / 10))
      else so + (1 - dBottom / p.autoscrollThreshold) *
        (if p.isIOS = true then p.autoscrollSpeed else p.autoscrollSpeed / 10) := by
  cases auto <;> cases scrolledUp <;> cases scrolledDown <;>
    by_cases hup : dTop < p.autoscrollThreshold <;>
      by_cases hdn : dBottom < p.autoscrollThreshold <;>
        simp [getScrollTargetOffset, hup, hdn]

/-- C2 counterexample: with the default threshold 30 and speed 100 on iOS,
a drag touching the very top (`distFromTop = 0`) at `scrollOffset = 1`
while the list is not scrolled up returns `0`, not the claimed displaced
offset `scrollOffset - (1 - 0/30) * 100 = -99`: the upward target is
clamped at `0`, which the claim as stated omits. -/
theorem getScrollTargetOffset_counterexample :
    getScrollTargetOffset ⟨false, false, 30, 100, true⟩ false 0 1000 1 false
        false = 0 ∧
    (1 : ℚ) - (1 - 0 / 30) * 100 = -99 ∧
    getScrollTargetOffset ⟨false, false, 30, 100, true⟩ false 0 1000 1 false
        false ≠ (1 : ℚ) - (1 - 0 / 30) * 100 := by
  refine ⟨?_, by norm_num, ?_⟩ <;> norm_num [getScrollTargetOffset]

/-- C2 (amended): `getScrollTargetOffset` returns `-1` exactly when an
autoscroll is already in progress, or neither edge distance is strictly
below `autoscrollThreshold`, or the near edge is the top while the list is
already scrolled up, or the near edge is the bottom while the list is
already scrolled down; in every other case it returns the current
`scrollOffset` displaced toward the near edge by
`(1 - distFromEdge/autoscrollThreshold)` times the platform-adjusted
`autoscrollSpeed`, additionally clamped below at `0` when the near edge is
the top.  Stated for positive threshold and speed and non-negative scroll
offset, as holds in any run with the default props. -/
theorem getScrollTargetOffset_spec (p : NodeProps)
    (auto scrolledUp scrolledDown : Bool) (dTop dBottom so : ℚ)
    (hthr : 0 < p.autoscrollThreshold) (hspeed : 0 < p.autoscrollSpeed)
    (hso : 0 ≤ so) :
    (getScrollTargetOffset p auto dTop dBottom so scrolledUp scrolledDown = -1 ↔
      auto = true ∨
      (¬ dTop < p.autoscrollThreshold ∧ ¬ dBottom < p.autoscrollThreshold) ∨
      (dTop < p.autoscrollThreshold ∧ scrolledUp = true) ∨
      (dBottom < p.autoscrollThreshold ∧ scrolledDown = true)) ∧
    (¬(auto = true ∨
        (¬ dTop < p.autoscrollThreshold ∧ ¬ dBottom < p.autoscrollThreshold) ∨
        (dTop < p.autoscrollThreshold ∧ scrolledUp = true) ∨
        (dBottom < p.autoscrollThreshold ∧ scrolledDown = true)) →
      getScrollTargetOffset p auto dTop dBottom so scrolledUp scrolledDown =
        if dTop < p.autoscrollThreshold then
          max 0 (so - (1 - dTop / p.autoscrollThreshold) *
            (if p.isIOS = true then p.autoscrollSpeed else p.autoscrollSpeed / 10))
        else so + (1 - dBottom / p.autoscrollThreshold) *
          (if p.isIOS = true then p.autoscrollSpeed else p.autoscrollSpeed / 10)) := by
  rw [getScrollTargetOffset_eq]
  have hspd : 0 < (if p.isIOS = true then p.autoscrollSpeed
      else p.autoscrollSpeed / 10) := by
    by_cases h : p.isIOS = true <;> simp [h] <;> linarith
  constructor
  · by_cases hauto : auto = true
    · simp [hauto]
    · rw [if_neg hauto]
      by_cases hg : ¬(dTop < p.autoscrollThreshold ∨
          dBottom < p.autoscrollThreshold) ∨
          (dTop < p.autoscrollThreshold ∧ scrolledUp = true) ∨
          (dBottom < p.autoscrollThreshold ∧ scrolledDown = true)
      · rw [if_pos hg]
        rw [not_or] at hg
        constructor
        · intro _
          exact Or.inr hg
        · intro _
          rfl
      · rw [if_neg hg]
        have hval : (if dTop < p.autoscrollThreshold then
            max 0 (so - (1 - dTop / p.autoscrollThreshold) *
              (if p.isIOS = true then p.autoscrollSpeed
                else p.autoscrollSpeed / 10))
          else so + (1 - dBottom / p.autoscrollThreshold) *
            (if p.isIOS = true then p.autoscrollSpeed
              else p.autoscrollSpeed / 10)) ≠ -1 := by
          by_cases hup : dTop < p.autoscrollThreshold
          · rw [if_pos hup]
            exact max_zero_ne_neg_one _
          · rw [if_neg hup]
            have hdn : dBottom < p.autoscrollThreshold := by
              by_contra hdn
              exact hg (Or.inl (by tauto))
            have hoff := autoscroll_offset_pos hthr hspd hdn
            intro h
            linarith
        constructor
        · intro h
          exact absurd h hval
        · intro hD
          exfalso
          rcases hD with h | h | h | h
          · exact hauto h
          · exact hg (Or.inl (not_or.mpr h))
          · exact hg (Or.inr (Or.inl h))
          · exact hg (Or.inr (Or.inr h))
  · intro hD
    rw [not_or, not_or, not_or] at hD
    obtain ⟨hauto, hne, hsu, hsd⟩ := hD
    rw [if_neg hauto, if_neg]
    intro hg
    rcases hg with h | h | h
    · rw [not_or] at h
      exact hne h
    · exact hsu h
    · exact hsd h

/-- C2 witness: with defaults (threshold 30, speed 100, iOS), a drag 15
from the bottom edge at offset 5 targets `5 + (1 - 15/30) * 100 = 55`;
every hypothesis of the characterization is discharged at that input. -/
theorem getScrollTargetOffset_spec_witness :
    getScrollTargetOffset ⟨false, false, 30, 100, true⟩ false 100 15 5 false
        false = 55 := by
  have h := getScrollTargetOffset_spec ⟨false, false, 30, 100, true⟩ false
    false false 100 15 5 (by norm_num) (by norm_num) (by norm_num)
  have hval := h.2 (by norm_num)
  rw [hval]
  norm_num

/-- C8: every non-negative result of `getScrollTargetOffset` (for positive
threshold and speed and non-negative scroll offset) is bounded by the
current offset: toward the top edge the target lies in `[0, scrollOffset]`
(the upward target is clamped at `0` and never overshoots above the
current offset), and toward the bottom edge it is at least
`scrollOffset`. -/
theorem getScrollTargetOffset_bounds (p : NodeProps)
    (auto scrolledUp scrolledDown : Bool) (dTop dBottom so : ℚ)
    (hthr : 0 < p.autoscrollThreshold) (hspeed : 0 < p.autoscrollSpeed)
    (hso : 0 ≤ so)
    (hres : 0 ≤ getScrollTargetOffset p auto dTop dBottom so scrolledUp
      scrolledDown) :
    (dTop < p.autoscrollThreshold →
      0 ≤ getScrollTargetOffset p auto dTop dBottom so scrolledUp scrolledDown ∧
      getScrollTargetOffset p auto dTop dBottom so scrolledUp scrolledDown ≤ so) ∧
    (p.autoscrollThreshold ≤ dTop →
      so ≤ getScrollTargetOffset p auto dTop dBottom so scrolledUp
        scrolledDown) := by
  have hspec := getScrollTargetOffset_spec p auto scrolledUp scrolledDown dTop
    dBottom so hthr hspeed hso
  have hne : getScrollTargetOffset p auto dTop dBottom so scrolledUp
      scrolledDown ≠ -1 := by
    intro h
    rw [h] at hres
    norm_num at hres
  have hD := (not_iff_not.mpr hspec.1).mp hne
  have hval := hspec.2 hD
  have hspd : 0 < (if p.isIOS = true then p.autoscrollSpeed
      else p.autoscrollSpeed / 10) := by
    by_cases h : p.isIOS = true <;> simp [h] <;> linarith
  rw [not_or, not_or, not_or] at hD
  obtain ⟨hauto, hboth, hsu, hsd⟩ := hD
  constructor
  · intro hup
    have hoff := autoscroll_offset_pos hthr hspd hup
    rw [hval, if_pos hup]
    refine ⟨le_max_left 0 _, ?_⟩
    rw [max_le_iff]
    exact ⟨hso, by linarith⟩
  · intro hge
    have hup : ¬ dTop < p.autoscrollThreshold := not_lt.mpr hge
    have hdn : dBottom < p.autoscrollThreshold := by
      by_contra hdn
      exact hboth ⟨hup, hdn⟩
    have hoff := autoscroll_offset_pos hthr hspd hdn
    rw [hval, if_neg hup]
    linarith

/-- C8 witness: with defaults (threshold 30, speed 100, iOS), a drag 15
from the top edge at offset 200 yields target 150, and the bounds
`0 ≤ 150 ≤ 200` follow by applying the theorem at that input. -/
theorem getScrollTargetOffset_bounds_witness :
    getScrollTargetOffset ⟨false, false, 30, 100, true⟩ false 15 1000 200
        false false = 150 ∧
    (0 : ℚ) ≤ getScrollTargetOffset ⟨false, false, 30, 100, true⟩ false 15
        1000 200 false false ∧
    getScrollTargetOffset ⟨false, false, 30, 100, true⟩ false 15 1000 200
        false false ≤ 200 := by
  have hval : getScrollTargetOffset ⟨false, false, 30, 100, true⟩ false 15
      1000 200 false false = 150 := by
    norm_num [getScrollTargetOffset]
  have h := getScrollTargetOffset_bounds ⟨false, false, 30, 100, true⟩ false
    false false 15 1000 200 (by norm_num) (by norm_num) (by norm_num)
    (by rw [hval]; norm_num)
  exact ⟨hval, h.1 (by norm_num)⟩

/-!  ## Concrete sample inputs used by the witnesses -/

/-- Default props on iOS: `autoscrollThreshold = 30`,
`autoscrollSpeed = 100`, vertical list, no item overflow. -/
def pIOS : NodeProps := ⟨false, false, 30, 100, true⟩

/-- A hovering drag near the bottom edge of a 600-tall container over a
2000-tall content, gesture ACTIVE: the hover position is `530`, so the
bottom distance is `20 ≤ 30` while the top distance is `530`. -/
def sEdge : NodeState :=
  { touchAbsolute := 530, touchCellOffset := 0, containerSize := 600,
    activeCellSize := 50, scrollOffset := 100, scrollViewSize := 2000,
    activationDistance := 0, activeIndex := 3, spacerIndex := 3,
    panGestureState := 4, hasMoved := true, disabled := false,
    isPressedInNative := true, isAutoscrollingNative := false,
    hoverClockRunning := false, hoverAnimStatePosition := 0 }

/-- A hovering drag mid-container with `activationDistance = 7` and the
gesture ACTIVE. -/
def sDrag : NodeState :=
  { touchAbsolute := 0, touchCellOffset := 0, containerSize := 600,
    activeCellSize := 50, scrollOffset := 0, scrollViewSize := 2000,
    activationDistance := 7, activeIndex := 2, spacerIndex := 2,
    panGestureState := 4, hasMoved := false, disabled := false,
    isPressedInNative := true, isAutoscrollingNative := false,
    hoverClockRunning := false, hoverAnimStatePosition := 0 }

/-- A hovering row whose gesture has just ended (state END), hover
position `450`. -/
def sHover : NodeState :=
  { touchAbsolute := 500, touchCellOffset := 50, containerSize := 600,
    activeCellSize := 50, scrollOffset := 0, scrollViewSize := 2000,
    activationDistance := 0, activeIndex := 3, spacerIndex := 3,
    panGestureState := 5, hasMoved := true, disabled := false,
    isPressedInNative := false, isAutoscrollingNative := false,
    hoverClockRunning := false, hoverAnimStatePosition := 0 }

/-- The idle native state: nothing lifted, spacer parked at `-1`. -/
def nodeIdle : NodeState :=
  { touchAbsolute := 0, touchCellOffset := 0, containerSize := 0,
    activeCellSize := 0, scrollOffset := 0, scrollViewSize := 0,
    activationDistance := 0, activeIndex := -1, spacerIndex := -1,
    panGestureState := 0, hasMoved := false, disabled := false,
    isPressedInNative := false, isAutoscrollingNative := false,
    hoverClockRunning := false, hoverAnimStatePosition := 0 }

/-- An idle component over two rows `"a" ↦ 0`, `"b" ↦ 1`. -/
def compFree : CompState :=
  { node := nodeIdle,
    react := { activeKey := none, hoverComponent := none },
    keyToIndex := [("a", 0), ("b", 1)], cellData := [] }

/-- The same component with row `"a"` already lifted as hover component
`9`. -/
def compBusy : CompState :=
  { compFree with react := { activeKey := some "a", hoverComponent := some 9 } }

/-- C5: the `checkAutoscroll` node invokes the `autoscroll` callback only
when the dragged row is within `autoscrollThreshold` of the top or bottom
edge, and not at the top edge while already scrolled up, and not at the
bottom edge while already scrolled down, and the pan gesture state is
ACTIVE, and no native autoscroll is in progress. -/
theorem checkAutoscroll_only_near_edge (p : NodeProps) (s : NodeState)
    (h : checkAutoscrollFires p s = true) :
    (distToTopEdge p s ≤ p.autoscrollThreshold ∨
      distToBottomEdge p s ≤ p.autoscrollThreshold) ∧
    ¬(distToTopEdge p s ≤ p.autoscrollThreshold ∧ isScrolledUp s = true) ∧
    ¬(distToBottomEdge p s ≤ p.autoscrollThreshold ∧ isScrolledDown s = true) ∧
    s.panGestureState = GS_ACTIVE ∧
    s.isAutoscrollingNative = false := by
  simp only [checkAutoscrollFires, isAtEdge, isAtTopEdge, isAtBottomEdge,
    Bool.and_eq_true, Bool.or_eq_true, Bool.not_eq_true', beq_iff_eq,
    decide_eq_true_eq] at h
  obtain ⟨⟨⟨⟨hedge, hnot1⟩, hnot2⟩, hactive⟩, hnoauto⟩ := h
  rw [Bool.and_eq_false_iff] at hnot1 hnot2
  refine ⟨Or.symm hedge, ?_, ?_, hactive, hnoauto⟩
  · rintro ⟨ha, hb⟩
    rcases hnot1 with h1 | h1
    · rw [decide_eq_false_iff_not] at h1
      exact h1 ha
    · rw [hb] at h1
      exact absurd h1 (by simp)
  · rintro ⟨ha, hb⟩
    rcases hnot2 with h1 | h1
    · rw [decide_eq_false_iff_not] at h1
      exact h1 ha
    · rw [hb] at h1
      exact absurd h1 (by simp)

/-- Helper: at `sEdge` with the default props, the `checkAutoscroll` guard
fires. -/
theorem checkAutoscrollFires_sEdge : checkAutoscrollFires pIOS sEdge = true := by
  norm_num [checkAutoscrollFires, isAtEdge, isAtTopEdge, isAtBottomEdge,
    distToTopEdge, distToBottomEdge, hoverAnim, hoverAnimUnconstrained,
    hoverAnimConstrained, isScrolledUp, isScrolledDown, sEdge, pIOS,
    GS_ACTIVE]

/-- C5 witness: at `sEdge` the guard fires and all five claimed conditions
hold, by the theorem applied at that state. -/
theorem checkAutoscroll_only_near_edge_witness :
    (distToTopEdge pIOS sEdge ≤ pIOS.autoscrollThreshold ∨
      distToBottomEdge pIOS sEdge ≤ pIOS.autoscrollThreshold) ∧
    ¬(distToTopEdge pIOS sEdge ≤ pIOS.autoscrollThreshold ∧
      isScrolledUp sEdge = true) ∧
    ¬(distToBottomEdge pIOS sEdge ≤ pIOS.autoscrollThreshold ∧
      isScrolledDown sEdge = true) ∧
    sEdge.panGestureState = GS_ACTIVE ∧
    sEdge.isAutoscrollingNative = false :=
  checkAutoscroll_only_near_edge pIOS sEdge checkAutoscrollFires_sEdge

/-- C7: a pan gesture event updates `touchAbsolute` to the touch
coordinate (the axis picked by `horizontal`) plus `activationDistance` and
sets `hasMoved`, exactly when a row is hovering, the pan gesture state is
ACTIVE, and the handler is not disabled; in every other case the event
leaves the whole state — in particular `touchAbsolute` and `hasMoved` —
unchanged. -/
theorem onPanGestureEvent_guarded (p : NodeProps) (s : NodeState)
    (x y : ℚ) :
    (panEventGuard s = true →
      onPanGestureEvent p s x y =
        { s with
          hasMoved := true,
          touchAbsolute :=
            (if p.horizontal then x else y) + s.activationDistance }) ∧
    (panEventGuard s = false → onPanGestureEvent p s x y = s) ∧
    (panEventGuard s = true ↔
      isHovering s = true ∧ s.panGestureState = GS_ACTIVE ∧
        s.disabled = false) := by
  refine ⟨?_, ?_, ?_⟩
  · intro h
    unfold onPanGestureEvent
    rw [if_pos h]
    by_cases hm : s.hasMoved = true
    · cases s
      simp_all
    · simp only [Bool.not_eq_true] at hm
      simp [hm]
  · intro h
    simp [onPanGestureEvent, h]
  · rw [panEventGuard]
    simp only [Bool.and_eq_true, Bool.not_eq_true', beq_iff_eq]
    tauto

/-- C7 witness: with the guard satisfied at `sDrag` the event moves
`touchAbsolute` to `y + activationDistance = 120 + 7` and sets `hasMoved`,
and with the gesture merely BEGAN it changes nothing. -/
theorem onPanGestureEvent_guarded_witness :
    (onPanGestureEvent pIOS sDrag 30 120).touchAbsolute = 127 ∧
    (onPanGestureEvent pIOS sDrag 30 120).hasMoved = true ∧
    onPanGestureEvent pIOS { sDrag with panGestureState := 2 } 30 120 =
      { sDrag with panGestureState := 2 } := by
  have h1 := (onPanGestureEvent_guarded pIOS sDrag 30 120).1 (by decide)
  have h2 := (onPanGestureEvent_guarded pIOS
    { sDrag with panGestureState := 2 } 30 120).2.1 (by decide)
  rw [h1]
  refine ⟨?_, rfl, h2⟩
  norm_num [sDrag, pIOS]

/-- C6: releasing the gesture while a row is hovering sets `disabled`,
seeds `hoverAnimState.position` with the current hover position, and
starts the hover clock; and for every state the floating overlay's
translation equals the spring state's position while the clock runs, and
the raw touch-derived hover position when it does not. -/
theorem onGestureRelease_spring (p : NodeProps) (s : NodeState)
    (h : isHovering s = true) :
    (onGestureRelease p s).1.disabled = true ∧
    (onGestureRelease p s).1.hoverAnimStatePosition = hoverAnim p s ∧
    (onGestureRelease p s).1.hoverClockRunning = true ∧
    (∀ t : NodeState, t.hoverClockRunning = true →
      hoverComponentTranslate p t = t.hoverAnimStatePosition) ∧
    (∀ t : NodeState, t.hoverClockRunning = false →
      hoverComponentTranslate p t = hoverAnim p t) := by
  refine ⟨?_, ?_, ?_, ?_, ?_⟩
  · simp [onGestureRelease, h]
  · simp [onGestureRelease, h, hoverAnim, hoverAnimUnconstrained,
      hoverAnimConstrained]
  · simp [onGestureRelease, h]
  · intro t ht
    simp [hoverComponentTranslate, ht]
  · intro t ht
    simp [hoverComponentTranslate, ht]

/-- C6 witness: releasing at the concrete hovering state `sHover` starts
the clock with the spring position seeded at the hover position `450`, and
the overlay then tracks the spring position. -/
theorem onGestureRelease_spring_witness :
    (onGestureRelease pIOS sHover).1.disabled = true ∧
    (onGestureRelease pIOS sHover).1.hoverAnimStatePosition = 450 ∧
    (onGestureRelease pIOS sHover).1.hoverClockRunning = true ∧
    hoverComponentTranslate pIOS (onGestureRelease pIOS sHover).1 =
      (onGestureRelease pIOS sHover).1.hoverAnimStatePosition := by
  have h := onGestureRelease_spring pIOS sHover (by decide)
  refine ⟨h.1, ?_, h.2.2.1, h.2.2.2.1 _ h.2.2.1⟩
  rw [h.2.1]
  norm_num [hoverAnim, hoverAnimConstrained, hoverAnimUnconstrained, sHover,
    pIOS]

/-- C4: at most one row can be lifted at a time.  When `hoverComponent` is
already non-null, `drag` leaves the component state unchanged and does not
invoke `onDragBegin`; only when `hoverComponent` is null does `drag` set
`activeKey` and `hoverComponent` to the new row and then invoke
`onDragBegin` with the row's index (when the prop is present and the index
is known). -/
theorem drag_single_active (hasOnDragBegin : Bool) (s : CompState)
    (hc : Nat) (k : String) :
    (s.react.hoverComponent ≠ none →
      drag hasOnDragBegin s hc k = (s, none)) ∧
    (s.react.hoverComponent = none →
      (drag hasOnDragBegin s hc k).1.react.activeKey = some k ∧
      (drag hasOnDragBegin s hc k).1.react.hoverComponent = some hc ∧
      (drag hasOnDragBegin s hc k).2 =
        (if hasOnDragBegin then lookupKey s.keyToIndex k else none)) := by
  constructor
  · intro h
    rw [Option.ne_none_iff_isSome] at h
    simp [drag, h]
  · intro h
    cases hlk : lookupKey s.keyToIndex k <;> cases hasOnDragBegin <;>
      simp [drag, h, hlk]

/-- C4 witness: `drag` at `compBusy` (component `9` already hovering)
changes nothing and reports no `onDragBegin`, while at `compFree` it lifts
key `"b"` and reports index `1`. -/
theorem drag_single_active_witness :
    drag true compBusy 7 "b" = (compBusy, none) ∧
    (drag true compFree 7 "b").1.react.activeKey = some "b" ∧
    (drag true compFree 7 "b").2 = some 1 := by
  have hbusy := (drag_single_active true compBusy 7 "b").1 (by
    simp [compBusy, compFree])
  have hfree := (drag_single_active true compFree 7 "b").2 (by
    simp [compFree])
  refine ⟨hbusy, hfree.1, ?_⟩
  rw [hfree.2.2]
  simp [compFree, lookupKey]

/-- C3: the spacer index tracks the active row.  When a drag begins
(`activeKey` goes from null to a key whose index is known),
`componentDidUpdate` sets `spacerIndex` and `activeIndex` to that row's
current flattened index; `resetHoverState` sets both back to `-1` and
clears the React state; and along every drag life-cycle (drag begins to
keys with known indices, hover resets) `spacerIndex` is `-1` exactly when
no row is being dragged. -/
theorem spacerIndex_tracks_active (s : CompState) (k : String) (i : Nat) :
    (s.react.activeKey = some k → lookupKey s.keyToIndex k = some i →
      (didUpdateActiveKey none s).node.spacerIndex = i ∧
      (didUpdateActiveKey none s).node.activeIndex = i) ∧
    ((resetHoverState s).node.spacerIndex = -1 ∧
      (resetHoverState s).node.activeIndex = -1 ∧
      (resetHoverState s).react.activeKey = none ∧
      (resetHoverState s).react.hoverComponent = none) ∧
    (DragReach s → (s.node.spacerIndex = -1 ↔ s.react.activeKey = none)) := by
  refine ⟨?_, ?_, ?_⟩
  · intro h hlk
    rcases hcell : lookupCell s.cellData k with _ | ⟨co, cs⟩ <;>
      simp [didUpdateActiveKey, h, hlk, hcell]
  · rw [resetHoverState]
    split_ifs with hcond
    · simp
    · push_neg at hcond
      simp at hcond ⊢
      exact ⟨hcond.2, hcond.1⟩
  · intro hreach
    induction hreach with
    | init s' h1 h2 h3 h4 =>
      rw [h1, h3]
      simp
    | beginDrag s' hc' k' i' hs hk hidx ih =>
      by_cases hhov : s'.react.hoverComponent = none
      · have hdrag : (drag true s' hc' k').1 =
            { s' with react :=
              { hoverComponent := some hc', activeKey := some k' } } := by
          simp [drag, hhov]
        rw [hdrag, hk]
        rcases hcell : lookupCell s'.cellData k' with _ | ⟨co, cs⟩ <;>
          simp [didUpdateActiveKey, hidx, hcell]
      · have hdrag : (drag true s' hc' k').1 = s' := by
          simp [drag, Option.isSome_iff_ne_none.mpr hhov]
        rw [hdrag, hk]
        simpa [didUpdateActiveKey, hk] using ih
    | reset s' hs ih =>
      rw [resetHoverState]
      split_ifs with hcond
      · simp
      · push_neg at hcond
        simp at hcond ⊢
        exact hcond.2

/-- C3 witness: lifting row `"b"` (index 1) of the two-row component sets
the spacer to `1`; resetting the busy component parks it at `-1`; and at
the idle component the spacer is `-1` iff nothing is dragged. -/
theorem spacerIndex_tracks_active_witness :
    (didUpdateActiveKey none
      { compFree with react :=
        { activeKey := some "b", hoverComponent := some 7 } }).node.spacerIndex
      = 1 ∧
    (resetHoverState compBusy).node.spacerIndex = -1 ∧
    (compFree.node.spacerIndex = -1 ↔ compFree.react.activeKey = none) := by
  have h := spacerIndex_tracks_active
    { compFree with react :=
      { activeKey := some "b", hoverComponent := some 7 } } "b" 1
  refine ⟨(h.1 rfl (by decide)).1, ?_, ?_⟩
  · exact (spacerIndex_tracks_active compBusy "a" 0).2.1.1
  · exact (spacerIndex_tracks_active compFree "a" 0).2.2
      (DragReach.init compFree rfl rfl rfl rfl)

end DSL
